import Mathlib

/-!
Verification of the Generic Player playback coordinator.

This file gives a shallow embedding of the playback-state logic of
`generic_player.py` and of the MPRIS bridge `generic_player_mpris.py`,
and proves (or refutes) the behavioural claims of the specification.

Modelling conventions:
* Time (`time.monotonic()`) is a rational number of seconds, passed
  explicitly to every operation that reads the clock.
* Milliseconds quantities (positions, durations) are integers, as in Qt.
* The Qt media backend is modelled by a three-valued state
  (`Stopped`/`Playing`/`Paused`) plus the loaded `source`; the commands
  `play()`, `pause()`, `stop()` act on it synchronously.
* Filesystem facts (`os.path.exists`) and mutagen tag lookups are
  supplied by a `World` parameter, so every definition stays executable.
* Pure GUI widget manipulation (labels, sliders, dialogs, lyrics panel)
  carries no playback state and is omitted; the status bar is modelled
  as an append-only trace of the messages shown, so that transient
  messages remain observable.
* `QTimer.singleShot` callbacks are modelled by exposing the scheduled
  action (for the end-of-track watchdog the schedule itself is the
  observable fact and is returned as a `Bool`).
-/

namespace GenericPlayer

/-- A playlist entry: `{path, type, artist, title, display}` as stored in
`self.playlist`.  The three derived fields are optional because legacy
playlist files may lack them. -/
structure Entry where
  path : String
  mtype : String
  artist : Option String
  title : Option String
  display : Option String
deriving Repr, DecidableEq

/-- Default entry used for guarded list indexing. -/
def defaultEntry : Entry :=
  { path := "", mtype := "audio", artist := none, title := none, display := none }

/-- Qt media backend playback state (`QMediaPlayer.PlaybackState` /
`QMediaPlayer.State`). -/
inductive BState
  | Stopped
  | Playing
  | Paused
deriving Repr, DecidableEq

/-- Result of a mutagen easy-tag lookup: optional title and artist tags. -/
structure TagInfo where
  tagTitle : Option String
  tagArtist : Option String

/-- The parts of the outside world the player consults: which files exist
on disk, and what tags mutagen reads from a file (none when mutagen is
unavailable or the file has no tags). -/
structure World where
  fileExists : String → Bool
  tags : String → Option TagInfo

/-- The mutable state of `MainWindow` relevant to playback, together with
the MPRIS bridge's forced-status pair (`_forced_playback_status`,
`_forced_until`) which lives on the bridge object in the source. -/
structure PState where
  playlist : List Entry
  current_song_index : ℤ
  shuffle_mode : Bool
  repeat_mode : Bool
  current_media_type : String
  duration_ms : ℤ
  position_ms : ℤ
  end_guard : Bool
  toggle_guard_until : ℚ
  last_playing : Bool
  mpris_last_playing : Bool
  last_pos_ms : ℤ
  last_pos_moved_at : ℚ
  last_ui_second : ℤ
  last_slider_update_ms : ℤ
  backend : BState
  source : Option String
  forced_playback_status : Option String
  forced_until : ℚ
  status_messages : List String

/-- Append a status-bar message to the trace (`status_bar.showMessage`). -/
def showMessage (s : PState) (m : String) : PState :=
  { s with status_messages := s.status_messages ++ [m] }

/-- Keep the characters after the last `/` (accumulator-style scan). -/
def basenameChars : List Char → List Char → List Char
  | cur, [] => cur.reverse
  | cur, c :: rest =>
    if c = '/' then basenameChars [] rest else basenameChars (c :: cur) rest

/-- Model of `os.path.basename` for POSIX paths. -/
def pyBasename (p : String) : String :=
  ⟨basenameChars [] p.data⟩

/-- Split a character list at the first occurrence of the (non-empty)
separator: `some (before, after)`, or `none` when the separator is
absent.  This is Python `s.split(sep, 1)` when it splits, and powers the
`sep in s` membership test. -/
def splitAtSubAux (sep : List Char) : List Char → List Char → Option (List Char × List Char)
  | _, [] => none
  | pre, c :: rest =>
    if sep.isPrefixOf (c :: rest) then some (pre.reverse, (c :: rest).drop sep.length)
    else splitAtSubAux sep (c :: pre) rest

/-- Split at the first occurrence of a separator. -/
def splitAtSub (sep l : List Char) : Option (List Char × List Char) :=
  splitAtSubAux sep [] l

/-- The Python `sub in s` substring test (for the non-empty literals the
source uses). -/
def strContains (s sub : String) : Bool :=
  (splitAtSub sub.data s.data).isSome

/-- Python `str.strip()`. -/
def pyStrip (s : String) : String :=
  ⟨((s.data.dropWhile Char.isWhitespace).reverse.dropWhile Char.isWhitespace).reverse⟩

/-- Python `str.lower()` for ASCII extensions. -/
def lowerStr (s : String) : String :=
  ⟨s.data.map Char.toLower⟩

/-- Model of `os.path.splitext`: split off the final extension of the basename;
a leading run of dots of the basename is not an extension separator. -/
def pySplitext (p : String) : String × String :=
  let b := (pyBasename p).data
  let lead := b.takeWhile (· == '.')
  let rest := b.drop lead.length
  let extRev := rest.reverse.takeWhile (· ≠ '.')
  if extRev.length < rest.length then
    let ext : List Char := '.' :: extRev.reverse
    (⟨p.data.take (p.data.length - ext.length)⟩, ⟨ext⟩)
  else (p, "")

/-- Supported video extensions (`SUPPORTED_VIDEO_EXTENSIONS`). -/
def SUPPORTED_VIDEO_EXTENSIONS : List String := [".mp4", ".avi", ".mkv", ".mov", ".wmv"]

/-- Supported audio extensions (`SUPPORTED_AUDIO_EXTENSIONS`). -/
def SUPPORTED_AUDIO_EXTENSIONS : List String := [".mp3", ".ogg", ".flac", ".wav"]

/-- Classify a path by extension as in `add_songs` /
`_process_dropped_files`; `none` for unsupported formats. -/
def classifyExt (f : String) : Option String :=
  let ext := lowerStr (pySplitext f).2
  if ext ∈ SUPPORTED_VIDEO_EXTENSIONS then some "video"
  else if ext ∈ SUPPORTED_AUDIO_EXTENSIONS then some "audio"
  else none

/-- Derived metadata triple returned by `_build_media_meta`. -/
structure Meta where
  artist : String
  title : String
  display : String
deriving Repr, DecidableEq

/-- The artist/title separators tried, in order, by `_build_media_meta`. -/
def metaSeps : List String := [" — ", " - ", " – ", "_-"]

/-- Split a stem at the first separator that occurs in it
(`stem.split(sep, 1)` guarded by `sep in stem`), trimming both halves. -/
def splitFirstSep : List String → String → Option (String × String)
  | [], _ => none
  | sep :: rest, stem =>
    match splitAtSub sep.data stem.data with
    | some (a, t) => some (pyStrip ⟨a⟩, pyStrip ⟨t⟩)
    | none => splitFirstSep rest stem

/-- Model of `MainWindow._build_media_meta`: filename heuristics, optional mutagen
tag override for audio, `"Unknown"` fallback, and display string. -/
def build_media_meta (tags : String → Option TagInfo) (file_path : String)
    (mtype : String) : Meta :=
  let base := pyBasename file_path
  let stem := (pySplitext base).1
  let fromName :=
    match splitFirstSep metaSeps stem with
    | some (a, t) => (a, t)
    | none => ("", stem)
  let tagged :=
    if mtype = "audio" then
      match tags file_path with
      | some ti =>
        let t1 := match ti.tagTitle with
          | some t => if t ≠ "" then t else fromName.2
          | none => fromName.2
        let a1 := match ti.tagArtist with
          | some a => if a ≠ "" then a else fromName.1
          | none => fromName.1
        (a1, t1)
      | none => fromName
    else fromName
  let title := if tagged.2 = "" then "Unknown" else tagged.2
  let display := if tagged.1 ≠ "" then tagged.1 ++ " — " ++ title else title
  { artist := tagged.1, title := title, display := display }

/-- An entry freshly built by an add operation:
`{"path": p, "type": t, **meta}`. -/
def entryFromMeta (path mtype : String) (m : Meta) : Entry :=
  { path := path, mtype := mtype,
    artist := some m.artist, title := some m.title, display := some m.display }

/-- Model of `GenericPlayerMPRIS.force_playback_status`: install a temporary
status override with expiry `now + max 0 (timeout_ms / 1000)`; invalid
status strings are refused. -/
def force_playback_status (s : PState) (now : ℚ) (status : String)
    (timeout_ms : ℤ) : PState :=
  if status = "Playing" ∨ status = "Paused" ∨ status = "Stopped" then
    { s with forced_playback_status := some status,
             forced_until := now + max 0 ((timeout_ms : ℚ) / 1000) }
  else s

/-- Model of `GenericPlayerMPRIS.clear_forced_playback_status`. -/
def clear_forced_playback_status (s : PState) : PState :=
  { s with forced_playback_status := none, forced_until := 0 }

/-- Model of `MainWindow._mpris_force_status_immediate`: validate then force. -/
def mpris_force_status_immediate (s : PState) (now : ℚ) (status : String)
    (timeout_ms : ℤ) : PState :=
  if status = "Playing" ∨ status = "Paused" ∨ status = "Stopped" then
    force_playback_status s now status timeout_ms
  else s

/-- The MPRIS status string derived from the Qt backend state (the map
used by the `PlaybackStatus` property's fallback branch). -/
def backendStatusStr (b : BState) : String :=
  match b with
  | .Playing => "Playing"
  | .Paused => "Paused"
  | .Stopped => "Stopped"

/-- Model of `MainWindow._mpris_force_actual_status`: force the bridge status to
the current backend state (timeout 650 ms). -/
def mpris_force_actual_status (s : PState) (now : ℚ) : PState :=
  force_playback_status s now (backendStatusStr s.backend) 650

/-- The MPRIS `PlaybackStatus` property: the forced value while it is a
non-empty string and unexpired, else the state derived from the backend. -/
def PlaybackStatus (s : PState) (now : ℚ) : String :=
  match s.forced_playback_status with
  | some st => if st ≠ "" ∧ now < s.forced_until then st else backendStatusStr s.backend
  | none => backendStatusStr s.backend

/-- Model of `player.pause()`: pauses the loaded source, no effect without one. -/
def pauseCmd (s : PState) : PState :=
  if s.source.isSome then { s with backend := .Paused } else s

/-- Model of `player.play()`: (re)starts the loaded source, no effect without one. -/
def playCmd (s : PState) : PState :=
  if s.source.isSome then { s with backend := .Playing } else s

/-- Model of `MainWindow.stop_song`: stop the backend, reset the slider/labels,
log the message, and set the end guard so the watchdog cannot fire after
a manual stop. -/
def stop_song (s : PState) : PState :=
  let s := { s with backend := BState.Stopped }
  let s := showMessage s "Playback stopped."
  { s with end_guard := true }

/-- The `meta.get("display") or fallback` idiom (`or` tests truthiness). -/
def displayOr (d : Option String) (fb : String) : String :=
  match d with
  | some x => if x ≠ "" then x else fb
  | none => fb

/-- Model of `MainWindow.play_song`: guard the index, backfill missing display
metadata into the playlist entry, then load and start the current entry
(streams unconditionally; local files only when they exist on disk). -/
def play_song (w : World) (now : ℚ) (s : PState) : PState :=
  if 0 ≤ s.current_song_index ∧ s.current_song_index < (s.playlist.length : ℤ) then
    let idx := s.current_song_index.toNat
    let info0 := s.playlist.getD idx defaultEntry
    let info :=
      if info0.display.isNone ∨ info0.title.isNone ∨ info0.artist.isNone then
        let m := build_media_meta w.tags info0.path info0.mtype
        { info0 with artist := some m.artist, title := some m.title,
                     display := some m.display }
      else info0
    let s1 := { s with playlist := s.playlist.set idx info,
                       current_media_type := info.mtype }
    if info.mtype = "stream" then
      let s2 := { s1 with source := some info.path, end_guard := false,
                          backend := BState.Playing }
      let s3 := mpris_force_status_immediate s2 now "Playing" 650
      showMessage s3 ("Streaming: " ++ displayOr info.display info.path)
    else if w.fileExists info.path then
      let s2 := { s1 with source := some info.path, end_guard := false,
                          backend := BState.Playing }
      showMessage s2 ("Playing: " ++ displayOr info.display (pyBasename info.path))
    else
      s1
  else s

/-- Random index choice: `random.choice(l)` with the randomness supplied
as an oracle `k`. -/
def choiceAt (l : List ℕ) (k : ℕ) : ℕ :=
  l.getD (k % l.length) 0

/-- Model of `MainWindow.next_song`: shuffle picks among all indices minus the
current one; linear mode advances or, at the last index, reports the end
of the playlist and stops without wrapping. -/
def next_song (w : World) (now : ℚ) (s : PState) (k : ℕ) : PState :=
  if s.playlist = [] then s
  else if s.shuffle_mode ∧ 1 < s.playlist.length then
    let choices0 := List.range s.playlist.length
    let choices :=
      if 0 ≤ s.current_song_index ∧ s.current_song_index < (s.playlist.length : ℤ)
      then choices0.eraseIdx s.current_song_index.toNat else choices0
    play_song w now { s with current_song_index := (choiceAt choices k : ℤ) }
  else if s.current_song_index + 1 < (s.playlist.length : ℤ) then
    play_song w now { s with current_song_index := s.current_song_index + 1 }
  else
    stop_song (showMessage s "End of playlist.")

/-- Model of `MainWindow.prev_song`: shuffle as in `next_song`; linear mode steps
back or, at index 0, reports the start of the playlist and replays
index 0 without wrapping. -/
def prev_song (w : World) (now : ℚ) (s : PState) (k : ℕ) : PState :=
  if s.playlist = [] then s
  else if s.shuffle_mode ∧ 1 < s.playlist.length then
    let choices0 := List.range s.playlist.length
    let choices :=
      if 0 ≤ s.current_song_index ∧ s.current_song_index < (s.playlist.length : ℤ)
      then choices0.eraseIdx s.current_song_index.toNat else choices0
    play_song w now { s with current_song_index := (choiceAt choices k : ℤ) }
  else if 0 ≤ s.current_song_index - 1 then
    play_song w now { s with current_song_index := s.current_song_index - 1 }
  else
    play_song w now { (showMessage s "Start of playlist.") with current_song_index := 0 }

/-- Model of `MainWindow._advance_after_end`: repeat mode restarts the current
track at position 0 and clears the guard; otherwise select the next
track. -/
def advance_after_end (w : World) (now : ℚ) (s : PState) (k : ℕ) : PState :=
  if s.repeat_mode then
    let s := playCmd { s with position_ms := 0 }
    { s with end_guard := false }
  else next_song w now s k

/-- Model of `MainWindow.update_slider`: record position movement, throttle the
slider/label updates, and run the end-of-track watchdog.  The returned
`Bool` reports whether `_advance_after_end` was scheduled (the 50 ms
single-shot timer). -/
def update_slider (now : ℚ) (s : PState) (position_ms : ℤ) : PState × Bool :=
  let s := { s with position_ms := position_ms }
  let s :=
    if position_ms ≠ s.last_pos_ms then
      { s with last_pos_ms := position_ms, last_pos_moved_at := now }
    else s
  let sec := Int.fdiv position_ms 1000
  let shouldUpdate :=
    200 ≤ (position_ms - s.last_slider_update_ms).natAbs ∨ sec ≠ s.last_ui_second
  let s := if shouldUpdate then { s with last_slider_update_ms := position_ms } else s
  let s := if sec ≠ s.last_ui_second then { s with last_ui_second := sec } else s
  if 0 < s.duration_ms then
    if max 0 (s.duration_ms - 1000) ≤ position_ms ∧ s.end_guard = false then
      ({ s with end_guard := true }, true)
    else (s, false)
  else (s, false)

/-- Model of `MainWindow.set_duration`. -/
def set_duration (s : PState) (duration_ms : ℤ) : PState :=
  { s with duration_ms := max 0 duration_ms, end_guard := false }

/-- Model of `MainWindow.handle_media_status`: an `EndOfMedia` status advances
immediately (no guard consulted); a `LoadedMedia`/`BufferedMedia` status
clears the guard.  The `Bool` reports whether `_advance_after_end` ran. -/
def handle_media_status (w : World) (now : ℚ) (s : PState) (statusName : String)
    (k : ℕ) : PState × Bool :=
  let r :=
    if strContains statusName "EndOfMedia" then (advance_after_end w now s k, true)
    else (s, false)
  let s2 :=
    if strContains statusName "LoadedMedia" ∨ strContains statusName "BufferedMedia" then
      { r.1 with end_guard := false }
    else r.1
  (s2, r.2)

/-- Model of `MainWindow.play_pause_song` (with `_toggle_guard_active` inlined at
its call site): debounce-guarded toggle; an accepted request first moves
the guard deadline to `now + 220/1000`, then acts on the (possibly
last-state-substituted) backend state. -/
def play_pause_song (w : World) (now : ℚ) (s : PState)
    (prefer_last_state : Bool) : PState :=
  if now < s.toggle_guard_until then s
  else
    let s := { s with toggle_guard_until := now + (220 : ℚ) / 1000 }
    let playing_backend : Bool := s.backend = BState.Playing
    let paused_backend : Bool := s.backend = BState.Paused
    let stopped_backend : Bool := s.backend = BState.Stopped
    let eff :=
      if prefer_last_state ∧ ((¬ playing_backend ∧ ¬ paused_backend) ∨ stopped_backend = true)
      then (s.mpris_last_playing, !s.mpris_last_playing)
      else (playing_backend, paused_backend)
    if eff.1 then
      pauseCmd (mpris_force_status_immediate s now "Paused" 650)
    else if eff.2 then
      playCmd (mpris_force_status_immediate s now "Playing" 650)
    else
      let s :=
        if s.current_song_index = -1 ∧ s.playlist ≠ []
        then { s with current_song_index := 0 } else s
      if s.playlist = [] then s
      else play_song w now (mpris_force_status_immediate s now "Playing" 650)

/-- Model of `MainWindow._is_effectively_playing`: trust an explicit Playing or
Paused backend answer; otherwise treat recent position movement (within
0.7 s) at a positive position as playing. -/
def is_effectively_playing (s : PState) (now : ℚ) : Bool :=
  if s.backend = BState.Playing then true
  else if s.backend = BState.Paused then false
  else decide (now - s.last_pos_moved_at < (7 : ℚ) / 10) && decide (0 < s.position_ms)

/-- Model of `MainWindow._toggle_play_pause_shortcut`: pre-force the intended
next status, seed `_last_playing` with the effective-playing heuristic,
then toggle (the 120 ms `_mpris_force_actual_status` resync is a
separately schedulable step, `mpris_force_actual_status`). -/
def toggle_play_pause_shortcut (w : World) (now : ℚ) (s : PState) : PState :=
  let playing_now := is_effectively_playing s now
  let intended := if playing_now then "Paused" else "Playing"
  let s := mpris_force_status_immediate s now intended 650
  let s := { s with last_playing := playing_now }
  play_pause_song w now s true

/-- Qt6 `playbackStateChanged` adapter
(`MainWindow._on_playback_state_changed`): record the confirmed state in
both last-playing flags and clear any forced bridge status. -/
def on_playback_state_changed (s : PState) (state : BState) : PState :=
  let playing := state = BState.Playing
  let s := { s with last_playing := playing, mpris_last_playing := playing }
  clear_forced_playback_status s

/-- Qt5 `stateChanged` adapter (`MainWindow._on_state_changed`): same
confirmed-state bookkeeping as the Qt6 adapter. -/
def on_state_changed (s : PState) (state : BState) : PState :=
  let playing := state = BState.Playing
  let s := { s with last_playing := playing, mpris_last_playing := playing }
  clear_forced_playback_status s

/-- Model of `GenericPlayerMPRIS._is_playing`: the app's `_last_playing` attribute
always exists, so the query fallbacks are unreachable. -/
def mpris_is_playing (s : PState) : Bool :=
  s.last_playing

/-- MPRIS `Play` command: toggles only when not already playing; the
`Bool` reports whether the toggle was dispatched to the app. -/
def mpris_Play (w : World) (now : ℚ) (s : PState) : PState × Bool :=
  if mpris_is_playing s then (s, false)
  else (play_pause_song w now (force_playback_status s now "Playing" 450) false, true)

/-- MPRIS `Pause` command: toggles only when currently playing. -/
def mpris_Pause (w : World) (now : ℚ) (s : PState) : PState × Bool :=
  if mpris_is_playing s then
    (play_pause_song w now (force_playback_status s now "Paused" 450) false, true)
  else (s, false)

/-- MPRIS `PlayPause` command: always dispatches the toggle. -/
def mpris_PlayPause (w : World) (now : ℚ) (s : PState) : PState × Bool :=
  let st := if mpris_is_playing s then "Paused" else "Playing"
  (play_pause_song w now (force_playback_status s now st 450) false, true)

/-- One file of `MainWindow.add_songs`: duplicate-path check first, then
extension classification, then existence check, then append. -/
def add_songs_step (w : World) (st : PState) (f : String) : PState :=
  if st.playlist.any (fun it => it.path = f) then st
  else
    match classifyExt f with
    | none => st
    | some mtype =>
      if w.fileExists f then
        { st with playlist :=
            st.playlist ++ [entryFromMeta f mtype (build_media_meta w.tags f mtype)] }
      else st

/-- Model of `MainWindow.add_songs` over the files returned by the dialog. -/
def add_songs (w : World) (s : PState) (files : List String) : PState :=
  if files = [] then s else files.foldl (add_songs_step w) s

/-- One file of `MainWindow._process_dropped_files`: classification,
existence, then duplicate-path check, then append. -/
def process_dropped_step (w : World) (st : PState) (f : String) : PState :=
  match classifyExt f with
  | none => st
  | some mtype =>
    if w.fileExists f then
      if st.playlist.any (fun it => it.path = f) then st
      else
        { st with playlist :=
            st.playlist ++ [entryFromMeta f mtype (build_media_meta w.tags f mtype)] }
    else st

/-- Model of `MainWindow._process_dropped_files`. -/
def process_dropped_files (w : World) (s : PState) (files : List String) : PState :=
  files.foldl (process_dropped_step w) s

/-- Model of `MainWindow.add_custom_stream`: reject empty name/URL, skip when an
existing stream entry already has this URL, else append a stream entry. -/
def add_custom_stream (s : PState) (name url : String) : PState :=
  let name := pyStrip name
  let url := pyStrip url
  if name = "" ∨ url = "" then s
  else if s.playlist.any (fun it => it.mtype = "stream" ∧ it.path = url) then s
  else
    { s with playlist := s.playlist ++
        [{ path := url, mtype := "stream",
           artist := some "", title := some name, display := some name }] }

/-- One selected row of `MainWindow.remove_songs`: bounds-check against
the live playlist, pop, and stop if the removed row was current. -/
def remove_step (s : PState) (idx : ℕ) : PState :=
  if idx < s.playlist.length then
    let s := { s with playlist := s.playlist.eraseIdx idx }
    if (idx : ℤ) = s.current_song_index then stop_song s else s
  else s

/-- Model of `MainWindow.remove_songs`: process the selected rows and then clamp
`current_song_index` to the new length. -/
def remove_songs (s : PState) (selected : List ℕ) : PState :=
  if selected = [] then s
  else
    let s := selected.foldl remove_step s
    if (s.playlist.length : ℤ) ≤ s.current_song_index then
      { s with current_song_index := (s.playlist.length : ℤ) - 1 }
    else s

/-- Model of `MainWindow.save_playlist`: refuses an empty playlist, otherwise
serializes the playlist list as-is. -/
def save_playlist (s : PState) : Option (List Entry) :=
  if s.playlist = [] then none else some s.playlist

/-- The backfill step of `MainWindow.load_playlist`: an entry missing any
of display/artist/title gets all three recomputed. -/
def backfillEntry (w : World) (e : Entry) : Entry :=
  if e.display.isNone ∨ e.artist.isNone ∨ e.title.isNone then
    let m := build_media_meta w.tags e.path e.mtype
    { e with artist := some m.artist, title := some m.title, display := some m.display }
  else e

/-- Model of `MainWindow.load_playlist` on already-parsed playlist data (entries
all carry `path` and `type`, which is what the loader validates). -/
def load_playlist_data (w : World) (data : List Entry) : List Entry :=
  data.map (backfillEntry w)

/-! ## Concrete fixtures for witnesses and counterexamples -/

/-- A world in which every file exists and no file carries tags. -/
def wTriv : World :=
  { fileExists := fun _ => true, tags := fun _ => none }

/-- The freshly initialized `MainWindow` state (the `__init__` values of
the modelled attributes). -/
def baseState : PState :=
  { playlist := [], current_song_index := -1, shuffle_mode := false,
    repeat_mode := false, current_media_type := "audio", duration_ms := 0,
    position_ms := 0, end_guard := false, toggle_guard_until := 0,
    last_playing := false, mpris_last_playing := false, last_pos_ms := -999999,
    last_pos_moved_at := 0, last_ui_second := -1,
    last_slider_update_ms := -999999, backend := BState.Stopped, source := none,
    forced_playback_status := none, forced_until := 0, status_messages := [] }

/-! ## Field-preservation helper lemmas -/

@[simp] theorem force_guard (s : PState) (now : ℚ) (st : String) (t : ℤ) :
    (force_playback_status s now st t).toggle_guard_until = s.toggle_guard_until := by
  unfold force_playback_status; split <;> rfl

@[simp] theorem forceImm_guard (s : PState) (now : ℚ) (st : String) (t : ℤ) :
    (mpris_force_status_immediate s now st t).toggle_guard_until = s.toggle_guard_until := by
  unfold mpris_force_status_immediate force_playback_status
  split_ifs <;> rfl

@[simp] theorem pauseCmd_guard (s : PState) :
    (pauseCmd s).toggle_guard_until = s.toggle_guard_until := by
  unfold pauseCmd; split <;> rfl

@[simp] theorem playCmd_guard (s : PState) :
    (playCmd s).toggle_guard_until = s.toggle_guard_until := by
  unfold playCmd; split <;> rfl

@[simp] theorem showMessage_guard (s : PState) (m : String) :
    (showMessage s m).toggle_guard_until = s.toggle_guard_until := rfl

@[simp] theorem play_song_guard (w : World) (now : ℚ) (s : PState) :
    (play_song w now s).toggle_guard_until = s.toggle_guard_until := by
  simp only [play_song, mpris_force_status_immediate, force_playback_status,
    showMessage, apply_ite PState.toggle_guard_until]
  split_ifs <;> rfl

/-- A toggle request arriving strictly before the guard deadline is a
complete no-op (`_toggle_guard_active` returns `True`). -/
theorem play_pause_noop_of_guard (w : World) (now : ℚ) (s : PState) (p : Bool)
    (h : now < s.toggle_guard_until) : play_pause_song w now s p = s := by
  unfold play_pause_song; rw [if_pos h]

/-- An accepted toggle request moves the guard deadline to
`now + 220/1000`, whatever branch it takes. -/
theorem play_pause_guard_after (w : World) (now : ℚ) (s : PState) (p : Bool)
    (h : s.toggle_guard_until ≤ now) :
    (play_pause_song w now s p).toggle_guard_until = now + (220 : ℚ) / 1000 := by
  unfold play_pause_song
  rw [if_neg (not_lt.mpr h)]
  simp only [pauseCmd, playCmd, mpris_force_status_immediate,
    force_playback_status, play_song_guard, apply_ite PState.toggle_guard_until]
  split_ifs <;> rfl

/-- A burst of toggle requests all arriving before a common deadline
leaves the state untouched. -/
theorem foldl_toggle_noop (w : World) (s1 : PState) (rest : List (ℚ × Bool))
    (h : ∀ tp ∈ rest, tp.1 < s1.toggle_guard_until) :
    rest.foldl (fun st tp => play_pause_song w tp.1 st tp.2) s1 = s1 := by
  induction rest with
  | nil => rfl
  | cons tp r ih =>
    have hn : play_pause_song w tp.1 s1 tp.2 = s1 :=
      play_pause_noop_of_guard w tp.1 s1 tp.2 (h tp (by simp))
    simp only [List.foldl_cons, hn]
    exact ih (fun x hx => h x (by simp [hx]))

/-! ## C2 -/

/-- C2: for a sequence of `play_pause_song` requests in which every call
after the first arrives strictly within the 220 ms debounce window of
the first (accepted) call, the later calls are no-ops, the state after
the burst equals the state after the single accepted toggle, and the
accepted toggle advances `_toggle_guard_until` forward to the fixed
`now + 220/1000` deadline. -/
theorem C2_toggle_debounce (w : World) (s : PState) (t1 : ℚ) (p1 : Bool)
    (rest : List (ℚ × Bool))
    (h1 : s.toggle_guard_until ≤ t1)
    (hrest : ∀ tp ∈ rest, tp.1 < t1 + (220 : ℚ) / 1000) :
    rest.foldl (fun st tp => play_pause_song w tp.1 st tp.2) (play_pause_song w t1 s p1)
      = play_pause_song w t1 s p1
    ∧ (play_pause_song w t1 s p1).toggle_guard_until = t1 + (220 : ℚ) / 1000
    ∧ s.toggle_guard_until < (play_pause_song w t1 s p1).toggle_guard_until := by
  have hg := play_pause_guard_after w t1 s p1 h1
  refine ⟨?_, hg, ?_⟩
  · exact foldl_toggle_noop w _ rest (fun tp htp => by rw [hg]; exact hrest tp htp)
  · rw [hg]; linarith

/-- C2 witness: a concrete burst of two calls 100 ms apart. -/
theorem C2_witness :
    baseState.toggle_guard_until ≤ 10
    ∧ (∀ tp ∈ [(((101 : ℚ) / 10), true)], tp.1 < 10 + (220 : ℚ) / 1000)
    ∧ ([(((101 : ℚ) / 10), true)].foldl
          (fun st tp => play_pause_song wTriv tp.1 st tp.2)
          (play_pause_song wTriv 10 baseState false)
        = play_pause_song wTriv 10 baseState false) :=
  ⟨by norm_num [baseState],
   by rintro tp htp; simp only [List.mem_singleton] at htp; subst htp; norm_num,
   (C2_toggle_debounce wTriv baseState 10 false [(((101 : ℚ) / 10), true)]
      (by norm_num [baseState])
      (by rintro tp htp; simp only [List.mem_singleton] at htp; subst htp; norm_num)).1⟩

/-! ## C1 -/

/-- An audio track with complete metadata. -/
def trackA : Entry :=
  { path := "/music/a.mp3", mtype := "audio",
    artist := some "", title := some "a", display := some "a" }

/-- A second audio track with complete metadata. -/
def trackB : Entry :=
  { path := "/music/b.mp3", mtype := "audio",
    artist := some "", title := some "b", display := some "b" }

/-- A player mid-way through the first of two tracks, duration known. -/
def c1Start : PState :=
  { baseState with playlist := [trackA, trackB], current_song_index := 0,
                   duration_ms := 10000, backend := BState.Playing,
                   source := some "/music/a.mp3" }

/-- C1 counterexample: with duration 10000 ms, a position tick at
9500 ms (within the 1000 ms trailing window) sets `_end_guard` and
schedules one advance, yet a subsequent `EndOfMedia` status — the second
signal, arriving with the guard already set — still performs the advance
(`handle_media_status` never consults `_end_guard`), so the boundary is
advanced twice, contradicting the claim. -/
theorem C1_counterexample :
    (update_slider 100 c1Start 9500).2 = true
    ∧ (update_slider 100 c1Start 9500).1.end_guard = true
    ∧ (handle_media_status wTriv 100 (update_slider 100 c1Start 9500).1
        "EndOfMedia" 0).2 = true := by
  refine ⟨?_, ?_, ?_⟩ <;> rfl

/-- The position-threshold watchdog in `update_slider` triggers once:
within the trailing window with the guard clear it schedules the advance
and sets the guard. -/
theorem update_slider_schedules (now : ℚ) (s : PState) (pos : ℤ)
    (hdur : 0 < s.duration_ms) (hpos : max 0 (s.duration_ms - 1000) ≤ pos)
    (hg : s.end_guard = false) :
    (update_slider now s pos).2 = true
    ∧ (update_slider now s pos).1.end_guard = true := by
  unfold update_slider
  simp only [apply_ite PState.duration_ms, apply_ite PState.end_guard, ite_self]
  split_ifs with h1 h2 <;> simp_all

/-- With the guard already set, a further position tick schedules no
advance. -/
theorem update_slider_guarded (now : ℚ) (s : PState) (pos : ℤ)
    (hg : s.end_guard = true) :
    (update_slider now s pos).2 = false := by
  unfold update_slider
  simp only [apply_ite PState.duration_ms, apply_ite PState.end_guard, ite_self]
  split_ifs with h1 h2 <;> simp_all

/-- The model of `handle_media_status` advances on every `EndOfMedia`, regardless of
the guard. -/
theorem handle_media_status_advances (w : World) (now : ℚ) (s : PState)
    (name : String) (k : ℕ) (hname : strContains name "EndOfMedia" = true) :
    (handle_media_status w now s name k).2 = true := by
  unfold handle_media_status
  simp [hname]

/-- C1 (amended): once position is within 1000 ms of the known duration,
the position-threshold check in `update_slider` sets the one-shot guard
`_end_guard` and schedules `_advance_after_end`, and a later
position-threshold tick, seeing the guard set, schedules no advance; the
explicit end-of-media event in `handle_media_status`, however, performs
the advance unconditionally without consulting or setting the guard, so
when both signals fire for the same track boundary the advance can run
twice. -/
theorem C1_watchdog (w : World) (now t2 : ℚ) (s s2 : PState) (pos p2 : ℤ)
    (k : ℕ) (name : String)
    (hdur : 0 < s.duration_ms) (hpos : max 0 (s.duration_ms - 1000) ≤ pos)
    (hg : s.end_guard = false) (hg2 : s2.end_guard = true)
    (hname : strContains name "EndOfMedia" = true) :
    (update_slider now s pos).2 = true
    ∧ (update_slider now s pos).1.end_guard = true
    ∧ (update_slider t2 s2 p2).2 = false
    ∧ (handle_media_status w t2 s2 name k).2 = true :=
  ⟨(update_slider_schedules now s pos hdur hpos hg).1,
   (update_slider_schedules now s pos hdur hpos hg).2,
   update_slider_guarded t2 s2 p2 hg2,
   handle_media_status_advances w t2 s2 name k hname⟩

/-- C1 witness: the amended statement at the concrete two-track state. -/
theorem C1_witness :
    (update_slider 100 c1Start 9500).2 = true
    ∧ (update_slider 200 (update_slider 100 c1Start 9500).1 9600).2 = false :=
  ⟨(C1_watchdog wTriv 100 200 c1Start (update_slider 100 c1Start 9500).1
      9500 9600 0 "EndOfMedia" (by decide) (by decide) (by rfl) (by rfl)
      (by rfl)).1,
   (C1_watchdog wTriv 100 200 c1Start (update_slider 100 c1Start 9500).1
      9500 9600 0 "EndOfMedia" (by decide) (by decide) (by rfl) (by rfl)
      (by rfl)).2.2.1⟩

/-! ## C3: which operations write the last-playing flags -/

@[simp] theorem force_last (s : PState) (now : ℚ) (st : String) (t : ℤ) :
    (force_playback_status s now st t).last_playing = s.last_playing := by
  unfold force_playback_status; split <;> rfl

@[simp] theorem force_mpris_last (s : PState) (now : ℚ) (st : String) (t : ℤ) :
    (force_playback_status s now st t).mpris_last_playing = s.mpris_last_playing := by
  unfold force_playback_status; split <;> rfl

@[simp] theorem forceImm_last (s : PState) (now : ℚ) (st : String) (t : ℤ) :
    (mpris_force_status_immediate s now st t).last_playing = s.last_playing := by
  unfold mpris_force_status_immediate; split <;> simp

@[simp] theorem forceImm_mpris_last (s : PState) (now : ℚ) (st : String) (t : ℤ) :
    (mpris_force_status_immediate s now st t).mpris_last_playing = s.mpris_last_playing := by
  unfold mpris_force_status_immediate; split <;> simp

@[simp] theorem pauseCmd_last (s : PState) :
    (pauseCmd s).last_playing = s.last_playing := by
  unfold pauseCmd; split <;> rfl

@[simp] theorem pauseCmd_mpris_last (s : PState) :
    (pauseCmd s).mpris_last_playing = s.mpris_last_playing := by
  unfold pauseCmd; split <;> rfl

@[simp] theorem playCmd_last (s : PState) :
    (playCmd s).last_playing = s.last_playing := by
  unfold playCmd; split <;> rfl

@[simp] theorem playCmd_mpris_last (s : PState) :
    (playCmd s).mpris_last_playing = s.mpris_last_playing := by
  unfold playCmd; split <;> rfl

@[simp] theorem stop_song_last (s : PState) :
    (stop_song s).last_playing = s.last_playing := rfl

@[simp] theorem stop_song_mpris_last (s : PState) :
    (stop_song s).mpris_last_playing = s.mpris_last_playing := rfl

@[simp] theorem showMessage_last (s : PState) (m : String) :
    (showMessage s m).last_playing = s.last_playing := rfl

@[simp] theorem showMessage_mpris_last (s : PState) (m : String) :
    (showMessage s m).mpris_last_playing = s.mpris_last_playing := rfl

@[simp] theorem play_song_last (w : World) (now : ℚ) (s : PState) :
    (play_song w now s).last_playing = s.last_playing := by
  simp only [play_song, mpris_force_status_immediate, force_playback_status,
    showMessage, apply_ite PState.last_playing]
  split_ifs <;> rfl

@[simp] theorem play_song_mpris_last (w : World) (now : ℚ) (s : PState) :
    (play_song w now s).mpris_last_playing = s.mpris_last_playing := by
  simp only [play_song, mpris_force_status_immediate, force_playback_status,
    showMessage, apply_ite PState.mpris_last_playing]
  split_ifs <;> rfl

@[simp] theorem play_pause_last (w : World) (now : ℚ) (s : PState) (p : Bool) :
    (play_pause_song w now s p).last_playing = s.last_playing := by
  unfold play_pause_song
  split
  · rfl
  · simp only [play_song_last, pauseCmd_last, forceImm_last,
      apply_ite PState.last_playing]
    split_ifs <;> simp

@[simp] theorem play_pause_mpris_last (w : World) (now : ℚ) (s : PState) (p : Bool) :
    (play_pause_song w now s p).mpris_last_playing = s.mpris_last_playing := by
  unfold play_pause_song
  split
  · rfl
  · simp only [play_song_mpris_last, pauseCmd_mpris_last, forceImm_mpris_last,
      apply_ite PState.mpris_last_playing]
    split_ifs <;> simp

@[simp] theorem next_song_last (w : World) (now : ℚ) (s : PState) (k : ℕ) :
    (next_song w now s k).last_playing = s.last_playing := by
  unfold next_song
  split_ifs <;> simp

@[simp] theorem next_song_mpris_last (w : World) (now : ℚ) (s : PState) (k : ℕ) :
    (next_song w now s k).mpris_last_playing = s.mpris_last_playing := by
  unfold next_song
  split_ifs <;> simp

@[simp] theorem prev_song_last (w : World) (now : ℚ) (s : PState) (k : ℕ) :
    (prev_song w now s k).last_playing = s.last_playing := by
  unfold prev_song
  split_ifs <;> simp

@[simp] theorem prev_song_mpris_last (w : World) (now : ℚ) (s : PState) (k : ℕ) :
    (prev_song w now s k).mpris_last_playing = s.mpris_last_playing := by
  unfold prev_song
  split_ifs <;> simp

@[simp] theorem advance_last (w : World) (now : ℚ) (s : PState) (k : ℕ) :
    (advance_after_end w now s k).last_playing = s.last_playing := by
  unfold advance_after_end
  split_ifs <;> simp

@[simp] theorem advance_mpris_last (w : World) (now : ℚ) (s : PState) (k : ℕ) :
    (advance_after_end w now s k).mpris_last_playing = s.mpris_last_playing := by
  unfold advance_after_end
  split_ifs <;> simp

@[simp] theorem handle_media_status_last (w : World) (now : ℚ) (s : PState)
    (name : String) (k : ℕ) :
    (handle_media_status w now s name k).1.last_playing = s.last_playing := by
  unfold handle_media_status
  split_ifs <;> simp

@[simp] theorem handle_media_status_mpris_last (w : World) (now : ℚ) (s : PState)
    (name : String) (k : ℕ) :
    (handle_media_status w now s name k).1.mpris_last_playing = s.mpris_last_playing := by
  unfold handle_media_status
  split_ifs <;> simp

@[simp] theorem update_slider_last (now : ℚ) (s : PState) (pos : ℤ) :
    (update_slider now s pos).1.last_playing = s.last_playing := by
  unfold update_slider
  simp only [apply_ite PState.duration_ms, apply_ite PState.end_guard, ite_self]
  split_ifs <;> simp [apply_ite PState.last_playing]

@[simp] theorem update_slider_mpris_last (now : ℚ) (s : PState) (pos : ℤ) :
    (update_slider now s pos).1.mpris_last_playing = s.mpris_last_playing := by
  unfold update_slider
  simp only [apply_ite PState.duration_ms, apply_ite PState.end_guard, ite_self]
  split_ifs <;> simp [apply_ite PState.mpris_last_playing]

/-- A state with a confirmed-state lag: the backend is Playing but the
last confirmed flag still says not-playing. -/
def c3State : PState :=
  { baseState with playlist := [trackA], current_song_index := 0,
                   backend := BState.Playing, source := some "/music/a.mp3",
                   last_playing := false }

/-- C3 counterexample: `_toggle_play_pause_shortcut` — not a backend
state-change notification handler — overwrites `_last_playing` with the
effective-playing heuristic (`self._last_playing = playing_now`), so the
flag is not written only by the confirmed notification handlers. -/
theorem C3_counterexample :
    (toggle_play_pause_shortcut wTriv 100 c3State).last_playing
      ≠ c3State.last_playing := by
  decide

/-- C3 (amended): `_mpris_last_playing` is written only by the confirmed
backend state-change notification handlers (`_on_playback_state_changed`
and `_on_state_changed`), which assign both flags the confirmed notified
state and which are the only modelled writers of either flag apart from
`_toggle_play_pause_shortcut`; that shortcut additionally seeds
`_last_playing` with the current effective-playing heuristic (leaving
`_mpris_last_playing` untouched), while the toggle coordinator, the
bridge commands, track selection, playback start/stop, the position
watchdog, and the forced-status override never write either flag. -/
theorem C3_flag_writers (w : World) (now : ℚ) (s : PState) (p : Bool)
    (k : ℕ) (name st : String) (t : ℤ) (pos : ℤ) (b : BState) :
    (play_pause_song w now s p).last_playing = s.last_playing
    ∧ (play_pause_song w now s p).mpris_last_playing = s.mpris_last_playing
    ∧ (mpris_Play w now s).1.last_playing = s.last_playing
    ∧ (mpris_Play w now s).1.mpris_last_playing = s.mpris_last_playing
    ∧ (mpris_Pause w now s).1.last_playing = s.last_playing
    ∧ (mpris_Pause w now s).1.mpris_last_playing = s.mpris_last_playing
    ∧ (mpris_PlayPause w now s).1.last_playing = s.last_playing
    ∧ (mpris_PlayPause w now s).1.mpris_last_playing = s.mpris_last_playing
    ∧ (next_song w now s k).last_playing = s.last_playing
    ∧ (next_song w now s k).mpris_last_playing = s.mpris_last_playing
    ∧ (prev_song w now s k).last_playing = s.last_playing
    ∧ (prev_song w now s k).mpris_last_playing = s.mpris_last_playing
    ∧ (stop_song s).last_playing = s.last_playing
    ∧ (stop_song s).mpris_last_playing = s.mpris_last_playing
    ∧ (play_song w now s).last_playing = s.last_playing
    ∧ (play_song w now s).mpris_last_playing = s.mpris_last_playing
    ∧ (handle_media_status w now s name k).1.last_playing = s.last_playing
    ∧ (handle_media_status w now s name k).1.mpris_last_playing = s.mpris_last_playing
    ∧ (update_slider now s pos).1.last_playing = s.last_playing
    ∧ (update_slider now s pos).1.mpris_last_playing = s.mpris_last_playing
    ∧ (force_playback_status s now st t).last_playing = s.last_playing
    ∧ (force_playback_status s now st t).mpris_last_playing = s.mpris_last_playing
    ∧ (toggle_play_pause_shortcut w now s).mpris_last_playing = s.mpris_last_playing
    ∧ (toggle_play_pause_shortcut w now s).last_playing = is_effectively_playing s now
    ∧ (on_playback_state_changed s b).last_playing = decide (b = BState.Playing)
    ∧ (on_playback_state_changed s b).mpris_last_playing = decide (b = BState.Playing)
    ∧ (on_state_changed s b).last_playing = decide (b = BState.Playing)
    ∧ (on_state_changed s b).mpris_last_playing = decide (b = BState.Playing) := by
  refine ⟨?_, ?_, ?_, ?_, ?_, ?_, ?_, ?_, ?_, ?_, ?_, ?_, ?_, ?_, ?_, ?_, ?_,
    ?_, ?_, ?_, ?_, ?_, ?_, ?_, ?_, ?_, ?_, ?_⟩ <;>
    (simp [mpris_Play, mpris_Pause, mpris_PlayPause, toggle_play_pause_shortcut,
      on_playback_state_changed, on_state_changed, clear_forced_playback_status,
      mpris_is_playing]) <;>
    (split_ifs <;> simp)

/-! ## C4: linear next/prev boundary policy -/

@[simp] theorem play_song_index (w : World) (now : ℚ) (s : PState) :
    (play_song w now s).current_song_index = s.current_song_index := by
  simp only [play_song, mpris_force_status_immediate, force_playback_status,
    showMessage, apply_ite PState.current_song_index]
  split_ifs <;> rfl

@[simp] theorem stop_song_index (s : PState) :
    (stop_song s).current_song_index = s.current_song_index := rfl

@[simp] theorem stop_song_backend (s : PState) :
    (stop_song s).backend = BState.Stopped := rfl

@[simp] theorem force_backend (s : PState) (now : ℚ) (st : String) (t : ℤ) :
    (force_playback_status s now st t).backend = s.backend := by
  unfold force_playback_status; split <;> rfl

@[simp] theorem forceImm_backend (s : PState) (now : ℚ) (st : String) (t : ℤ) :
    (mpris_force_status_immediate s now st t).backend = s.backend := by
  unfold mpris_force_status_immediate; split <;> simp

/-- The model of `play_song` with a valid index starts playback whenever the current
entry is a stream or its file exists on disk. -/
theorem play_song_plays (w : World) (now : ℚ) (s : PState)
    (hidx : 0 ≤ s.current_song_index ∧ s.current_song_index < (s.playlist.length : ℤ))
    (hp : (s.playlist.getD s.current_song_index.toNat defaultEntry).mtype = "stream"
        ∨ w.fileExists (s.playlist.getD s.current_song_index.toNat defaultEntry).path = true) :
    (play_song w now s).backend = BState.Playing := by
  unfold play_song
  rw [if_pos hidx]
  simp only [mpris_force_status_immediate, force_playback_status, showMessage,
    apply_ite Entry.mtype, apply_ite Entry.path, apply_ite PState.backend, ite_self]
  split_ifs <;> simp_all

/-- C4: with shuffle off, `next_song` at the last index reports the end
of the playlist and stops (no wrap of `current_song_index`); `prev_song`
at index 0 reports the start, keeps the index clamped at 0 and replays
that track (so it starts playback whenever the track is playable); and
on an empty playlist both operations are no-ops. -/
theorem C4_boundaries (w : World) (now : ℚ) (s : PState) (k : ℕ)
    (hsh : s.shuffle_mode = false) :
    (s.playlist ≠ [] → s.current_song_index = (s.playlist.length : ℤ) - 1 →
      ((next_song w now s k).current_song_index = s.current_song_index
        ∧ (next_song w now s k).backend = BState.Stopped
        ∧ (next_song w now s k).status_messages
            = s.status_messages ++ ["End of playlist.", "Playback stopped."]))
    ∧ (s.playlist ≠ [] → s.current_song_index = 0 →
      ((prev_song w now s k).current_song_index = 0
        ∧ prev_song w now s k
            = play_song w now
                { (showMessage s "Start of playlist.") with current_song_index := 0 }
        ∧ (((s.playlist.getD 0 defaultEntry).mtype = "stream"
            ∨ w.fileExists ((s.playlist.getD 0 defaultEntry).path) = true) →
            (prev_song w now s k).backend = BState.Playing)))
    ∧ (s.playlist = [] → next_song w now s k = s ∧ prev_song w now s k = s) := by
  refine ⟨?_, ?_, ?_⟩
  · intro hne hlast
    have hnotsh : ¬ (s.shuffle_mode = true ∧ 1 < s.playlist.length) := by
      rintro ⟨a, -⟩; rw [hsh] at a; exact Bool.false_ne_true a
    have hnoinc : ¬ (s.current_song_index + 1 < (s.playlist.length : ℤ)) := by
      rw [hlast]; omega
    unfold next_song
    rw [if_neg hne, if_neg hnotsh, if_neg hnoinc]
    refine ⟨rfl, rfl, ?_⟩
    simp [stop_song, showMessage]
  · intro hne h0
    have hnotsh : ¬ (s.shuffle_mode = true ∧ 1 < s.playlist.length) := by
      rintro ⟨a, -⟩; rw [hsh] at a; exact Bool.false_ne_true a
    have hnodec : ¬ ((0 : ℤ) ≤ s.current_song_index - 1) := by
      rw [h0]; omega
    have hlen : 0 < s.playlist.length := List.length_pos.mpr hne
    unfold prev_song
    rw [if_neg hne, if_neg hnotsh, if_neg hnodec]
    refine ⟨by simp, rfl, ?_⟩
    intro hp
    refine play_song_plays w now _ ⟨by simp, ?_⟩ (by simpa using hp)
    simp only [showMessage]
    exact_mod_cast hlen
  · intro hemp
    constructor
    · unfold next_song; rw [if_pos hemp]
    · unfold prev_song; rw [if_pos hemp]

/-- A two-track playlist positioned at the last track, shuffle off. -/
def c4Last : PState :=
  { baseState with playlist := [trackA, trackB], current_song_index := 1,
                   backend := BState.Playing, source := some "/music/b.mp3" }

/-- C4 witness: `next_song` at the last index of the concrete two-track
playlist keeps the index and stops. -/
theorem C4_witness :
    (next_song wTriv 0 c4Last 0).current_song_index = c4Last.current_song_index
    ∧ (next_song wTriv 0 c4Last 0).backend = BState.Stopped :=
  ⟨((C4_boundaries wTriv 0 c4Last 0 rfl).1 (by decide) (by decide)).1,
   ((C4_boundaries wTriv 0 c4Last 0 rfl).1 (by decide) (by decide)).2.1⟩

/-! ## C5: shuffle never reselects the current index -/

/-- The element picked from `range n` with index `c` removed is a valid
index different from `c`. -/
theorem choice_eraseIdx_range (n c k : ℕ) (hn : 1 < n) (hc : c < n) :
    choiceAt ((List.range n).eraseIdx c) k < n
    ∧ choiceAt ((List.range n).eraseIdx c) k ≠ c := by
  have hlen : ((List.range n).eraseIdx c).length = n - 1 := by
    simp [List.length_eraseIdx_of_lt, hc]
  have hpos : 0 < ((List.range n).eraseIdx c).length := by omega
  have hj : k % ((List.range n).eraseIdx c).length
      < ((List.range n).eraseIdx c).length := Nat.mod_lt _ hpos
  have hget : choiceAt ((List.range n).eraseIdx c) k
      = ((List.range n).eraseIdx c)[k % ((List.range n).eraseIdx c).length] := by
    unfold choiceAt
    exact List.getD_eq_getElem _ _ hj
  rw [hget]
  by_cases hji : k % ((List.range n).eraseIdx c).length < c
  · rw [List.getElem_eraseIdx_of_lt _ _ _ hj hji]
    simp only [List.getElem_range]
    omega
  · rw [List.getElem_eraseIdx_of_ge _ _ _ hj (by omega)]
    simp only [List.getElem_range]
    omega

/-- C5: with shuffle on and more than one track, both `next_song` and
`prev_song` select an index drawn from the playlist indices excluding
the current one — in particular the new index is never the previous
current index. -/
theorem C5_shuffle_no_reselect (w : World) (now : ℚ) (s : PState) (k k2 : ℕ)
    (hsh : s.shuffle_mode = true) (hlen : 1 < s.playlist.length)
    (h0 : 0 ≤ s.current_song_index)
    (h1 : s.current_song_index < (s.playlist.length : ℤ)) :
    ((next_song w now s k).current_song_index ≠ s.current_song_index
      ∧ 0 ≤ (next_song w now s k).current_song_index
      ∧ (next_song w now s k).current_song_index < (s.playlist.length : ℤ))
    ∧ ((prev_song w now s k2).current_song_index ≠ s.current_song_index
      ∧ 0 ≤ (prev_song w now s k2).current_song_index
      ∧ (prev_song w now s k2).current_song_index < (s.playlist.length : ℤ)) := by
  have hne : s.playlist ≠ [] := List.ne_nil_of_length_pos (by omega)
  have hcn : s.current_song_index.toNat < s.playlist.length := by omega
  obtain ⟨hb1, hb2⟩ := choice_eraseIdx_range s.playlist.length
    s.current_song_index.toNat k hlen hcn
  obtain ⟨hc1, hc2⟩ := choice_eraseIdx_range s.playlist.length
    s.current_song_index.toNat k2 hlen hcn
  constructor
  · unfold next_song
    rw [if_neg hne, if_pos ⟨hsh, hlen⟩]
    simp only [if_pos (And.intro h0 h1), play_song_index]
    refine ⟨?_, ?_, ?_⟩ <;> dsimp only <;> omega
  · unfold prev_song
    rw [if_neg hne, if_pos ⟨hsh, hlen⟩]
    simp only [if_pos (And.intro h0 h1), play_song_index]
    refine ⟨?_, ?_, ?_⟩ <;> dsimp only <;> omega

/-- A two-track playlist positioned at the first track, shuffle on. -/
def c5State : PState :=
  { baseState with playlist := [trackA, trackB], current_song_index := 0,
                   shuffle_mode := true }

/-- C5 witness: the amended-free claim at a concrete two-track shuffle
state. -/
theorem C5_witness :
    (next_song wTriv 0 c5State 0).current_song_index ≠ c5State.current_song_index
    ∧ (prev_song wTriv 0 c5State 1).current_song_index ≠ c5State.current_song_index :=
  ⟨(C5_shuffle_no_reselect wTriv 0 c5State 0 1 rfl (by decide) (by decide)
      (by decide)).1.1,
   (C5_shuffle_no_reselect wTriv 0 c5State 0 1 rfl (by decide) (by decide)
      (by decide)).2.1⟩

/-! ## C6: forced-status override expiry -/

/-- C6: a forced status installed by `force_playback_status` at `t0`
with some timeout is ignored by every `PlaybackStatus` read at or after
its expiry `t0 + max 0 (timeout/1000)`, which returns the state derived
from the backend even though no reconciliation callback has run; and a
confirmed backend state-change notification clears the override
immediately, after which every read is backend-derived. -/
theorem C6_forced_override (s : PState) (t0 t : ℚ) (status : String)
    (timeout_ms : ℤ) (b : BState)
    (hv : status = "Playing" ∨ status = "Paused" ∨ status = "Stopped")
    (ht : t0 + max 0 ((timeout_ms : ℚ) / 1000) ≤ t) :
    PlaybackStatus (force_playback_status s t0 status timeout_ms) t
      = backendStatusStr (force_playback_status s t0 status timeout_ms).backend
    ∧ (on_playback_state_changed s b).forced_playback_status = none
    ∧ (∀ t2 : ℚ, PlaybackStatus (on_playback_state_changed s b) t2
        = backendStatusStr (on_playback_state_changed s b).backend)
    ∧ (on_state_changed s b).forced_playback_status = none := by
  refine ⟨?_, rfl, fun t2 => rfl, rfl⟩
  unfold force_playback_status PlaybackStatus
  rw [if_pos hv]
  dsimp only
  rw [if_neg]
  rintro ⟨-, hlt⟩
  exact absurd ht (not_le.mpr hlt)

/-- C6 witness: a 450 ms override installed at time 0 is ignored by a
read at time 1. -/
theorem C6_witness :
    PlaybackStatus (force_playback_status baseState 0 "Playing" 450) 1
      = backendStatusStr (force_playback_status baseState 0 "Playing" 450).backend :=
  (C6_forced_override baseState 0 1 "Playing" 450 BState.Playing (Or.inl rfl)
    (by norm_num)).1

/-! ## C7: bridge Play/Pause idempotence -/

/-- C7: the bridge `Play` command is a no-op (no dispatched backend
toggle, state unchanged) when `_is_playing` reports already playing, and
`Pause` is a no-op when it reports not playing (paused or stopped);
`PlayPause` always dispatches the toggle. -/
theorem C7_bridge_idempotent (w : World) (now : ℚ) (s sp : PState)
    (hplay : s.last_playing = true) (hpause : sp.last_playing = false) :
    mpris_Play w now s = (s, false)
    ∧ mpris_Pause w now sp = (sp, false)
    ∧ (mpris_PlayPause w now s).2 = true
    ∧ (mpris_PlayPause w now sp).2 = true := by
  refine ⟨?_, ?_, rfl, rfl⟩
  · unfold mpris_Play mpris_is_playing
    rw [if_pos hplay]
  · unfold mpris_Pause mpris_is_playing
    rw [if_neg (by simp [hpause])]

/-- A playing state as the bridge sees it (confirmed flag set). -/
def c7Playing : PState :=
  { baseState with backend := BState.Playing, last_playing := true }

/-- C7 witness: concrete idempotent `Play` on a playing state and
`Pause` on a stopped state. -/
theorem C7_witness :
    mpris_Play wTriv 0 c7Playing = (c7Playing, false)
    ∧ mpris_Pause wTriv 0 baseState = (baseState, false) :=
  ⟨(C7_bridge_idempotent wTriv 0 c7Playing baseState rfl rfl).1,
   (C7_bridge_idempotent wTriv 0 c7Playing baseState rfl rfl).2.1⟩

/-! ## C8: playlist save/load round-trip -/

/-- The `{path, type}` pair of a playlist entry. -/
def pathType (e : Entry) : String × String :=
  (e.path, e.mtype)

@[simp] theorem backfillEntry_path (w : World) (e : Entry) :
    (backfillEntry w e).path = e.path := by
  unfold backfillEntry; split <;> rfl

@[simp] theorem backfillEntry_mtype (w : World) (e : Entry) :
    (backfillEntry w e).mtype = e.mtype := by
  unfold backfillEntry; split <;> rfl

/-- C8: saving a non-empty playlist and loading the saved data
reproduces the same ordered `{path, type}` sequence; every entry is
loaded (none is dropped by the metadata backfill); an entry missing any
derived field has all three backfilled from `_build_media_meta` of its
path and type; and that backfill is deterministic — equal path and type
always produce the same artist/title/display metadata. -/
theorem C8_roundtrip (w : World) (s : PState) (h : s.playlist ≠ []) :
    save_playlist s = some s.playlist
    ∧ (load_playlist_data w s.playlist).map pathType = s.playlist.map pathType
    ∧ (load_playlist_data w s.playlist).length = s.playlist.length
    ∧ (∀ e ∈ s.playlist,
        (e.display.isNone ∨ e.artist.isNone ∨ e.title.isNone) →
          backfillEntry w e
            = { e with
                artist := some (build_media_meta w.tags e.path e.mtype).artist,
                title := some (build_media_meta w.tags e.path e.mtype).title,
                display := some (build_media_meta w.tags e.path e.mtype).display })
    ∧ (∀ e1 e2 : Entry, e1.path = e2.path → e1.mtype = e2.mtype →
        build_media_meta w.tags e1.path e1.mtype
          = build_media_meta w.tags e2.path e2.mtype) := by
  refine ⟨?_, ?_, ?_, ?_, ?_⟩
  · unfold save_playlist; rw [if_neg h]
  · unfold load_playlist_data
    rw [List.map_map]
    simp [pathType, Function.comp_def]
  · simp [load_playlist_data]
  · intro e he hm
    unfold backfillEntry
    rw [if_pos hm]
  · intro e1 e2 hp hm
    rw [hp, hm]

/-- A legacy entry missing all derived metadata fields. -/
def legacyEntry : Entry :=
  { path := "/music/x - y.mp3", mtype := "audio",
    artist := none, title := none, display := none }

/-- A playlist holding a complete entry and a legacy entry. -/
def c8State : PState :=
  { baseState with playlist := [trackA, legacyEntry] }

/-- C8 witness: round-trip of the concrete two-entry playlist (one
legacy entry included). -/
theorem C8_witness :
    save_playlist c8State = some c8State.playlist
    ∧ (load_playlist_data wTriv c8State.playlist).map pathType
        = c8State.playlist.map pathType :=
  ⟨(C8_roundtrip wTriv c8State (by decide)).1,
   (C8_roundtrip wTriv c8State (by decide)).2.1⟩

/-! ## C9: duplicate-path behaviour of the add operations -/

/-- A one-audio-track playlist for the stream-duplicate counterexample. -/
def c9State : PState :=
  { baseState with playlist := [trackA] }

/-- C9 counterexample: `add_custom_stream` only checks existing *stream*
entries for the URL, so adding a stream whose URL equals the path of the
existing audio entry appends a second entry with the same path. -/
theorem C9_counterexample :
    (c9State.playlist.map Entry.path).Nodup
    ∧ ¬ ((add_custom_stream c9State "My Stream" "/music/a.mp3").playlist.map
          Entry.path).Nodup := by
  constructor
  · decide
  · decide

/-- A single `add_songs` step keeps playlist paths duplicate-free. -/
theorem add_songs_step_nodup (w : World) (st : PState) (f : String)
    (h : (st.playlist.map Entry.path).Nodup) :
    ((add_songs_step w st f).playlist.map Entry.path).Nodup := by
  unfold add_songs_step
  split_ifs with h1 h2
  · exact h
  · split
    · exact h
    · have hnot : f ∉ st.playlist.map Entry.path := by
        intro hmem
        apply h1
        obtain ⟨e, he, hep⟩ := List.mem_map.mp hmem
        exact List.any_eq_true.mpr ⟨e, he, by simp [hep]⟩
      simp only [List.map_append, List.map_cons, List.map_nil]
      rw [List.nodup_append]
      exact ⟨h, List.nodup_singleton _, by simpa [entryFromMeta] using hnot⟩
  · split <;> exact h

/-- A single drag-and-drop step keeps playlist paths duplicate-free. -/
theorem process_dropped_step_nodup (w : World) (st : PState) (f : String)
    (h : (st.playlist.map Entry.path).Nodup) :
    ((process_dropped_step w st f).playlist.map Entry.path).Nodup := by
  unfold process_dropped_step
  split
  · exact h
  · split_ifs with h1 h2
    · exact h
    · have hnot : f ∉ st.playlist.map Entry.path := by
        intro hmem
        apply h2
        obtain ⟨e, he, hep⟩ := List.mem_map.mp hmem
        exact List.any_eq_true.mpr ⟨e, he, by simp [hep]⟩
      simp only [List.map_append, List.map_cons, List.map_nil]
      rw [List.nodup_append]
      exact ⟨h, List.nodup_singleton _, by simpa [entryFromMeta] using hnot⟩
    · exact h

/-- Folding `add_songs_step` preserves duplicate-freedom. -/
theorem foldl_add_songs_nodup (w : World) (files : List String) :
    ∀ st : PState, (st.playlist.map Entry.path).Nodup →
      ((files.foldl (add_songs_step w) st).playlist.map Entry.path).Nodup := by
  induction files with
  | nil => intro st h; exact h
  | cons f r ih =>
    intro st h
    exact ih _ (add_songs_step_nodup w st f h)

/-- Folding `process_dropped_step` preserves duplicate-freedom. -/
theorem foldl_dropped_nodup (w : World) (files : List String) :
    ∀ st : PState, (st.playlist.map Entry.path).Nodup →
      ((files.foldl (process_dropped_step w) st).playlist.map Entry.path).Nodup := by
  induction files with
  | nil => intro st h; exact h
  | cons f r ih =>
    intro st h
    exact ih _ (process_dropped_step_nodup w st f h)

/-- C9 (amended): `add_songs` and `_process_dropped_files` skip any file
whose path equals the path of *any* existing entry, so they preserve
path-uniqueness of the whole playlist; `add_custom_stream` skips a URL
only when an existing *stream* entry carries it, so it preserves overall
path-uniqueness only when the URL differs from every existing entry's
path, but it always preserves path-uniqueness among the stream entries. -/
theorem C9_add_uniqueness (w : World) (s : PState) (files fs2 : List String)
    (name url : String)
    (h : (s.playlist.map Entry.path).Nodup) :
    ((add_songs w s files).playlist.map Entry.path).Nodup
    ∧ ((process_dropped_files w s fs2).playlist.map Entry.path).Nodup
    ∧ ((∀ e ∈ s.playlist, e.path ≠ pyStrip url) →
        ((add_custom_stream s name url).playlist.map Entry.path).Nodup)
    ∧ (((s.playlist.filter (fun e => e.mtype = "stream")).map Entry.path).Nodup →
        (((add_custom_stream s name url).playlist.filter
            (fun e => e.mtype = "stream")).map Entry.path).Nodup) := by
  refine ⟨?_, ?_, ?_, ?_⟩
  · unfold add_songs
    split
    · exact h
    · exact foldl_add_songs_nodup w files s h
  · exact foldl_dropped_nodup w fs2 s h
  · intro hfree
    simp only [add_custom_stream]
    split_ifs with h1 h2
    · exact h
    · exact h
    · simp only [List.map_append, List.map_cons, List.map_nil]
      rw [List.nodup_append]
      refine ⟨h, List.nodup_singleton _, ?_⟩
      intro a ha hb
      simp only [List.mem_singleton] at hb
      obtain ⟨e, he, hep⟩ := List.mem_map.mp ha
      exact hfree e he (by rw [hep, hb])
  · intro hstream
    simp only [add_custom_stream]
    split_ifs with h1 h2
    · exact hstream
    · exact hstream
    · have hnot : pyStrip url
          ∉ (s.playlist.filter (fun e => e.mtype = "stream")).map Entry.path := by
        intro hmem
        apply h2
        obtain ⟨e, he, hep⟩ := List.mem_map.mp hmem
        obtain ⟨he2, he3⟩ := List.mem_filter.mp he
        exact List.any_eq_true.mpr ⟨e, he2, by simp_all⟩
      rw [List.filter_append]
      simp only [List.filter_cons, List.filter_nil]
      rw [if_pos (by simp)]
      simp only [List.map_append, List.map_cons, List.map_nil]
      rw [List.nodup_append]
      exact ⟨hstream, List.nodup_singleton _, by simpa using hnot⟩

/-- C9 witness: adding a fresh file and dropping a fresh file on the
concrete one-track playlist keeps paths unique. -/
theorem C9_witness :
    ((add_songs wTriv c9State ["/music/b.mp3"]).playlist.map Entry.path).Nodup
    ∧ ((process_dropped_files wTriv c9State ["/music/b.mp3"]).playlist.map
        Entry.path).Nodup :=
  ⟨(C9_add_uniqueness wTriv c9State ["/music/b.mp3"] ["/music/b.mp3"] "n" "u"
      (by decide)).1,
   (C9_add_uniqueness wTriv c9State ["/music/b.mp3"] ["/music/b.mp3"] "n" "u"
      (by decide)).2.1⟩

/-! ## C10: remove_songs clamps the current index -/

@[simp] theorem remove_step_index (s : PState) (i : ℕ) :
    (remove_step s i).current_song_index = s.current_song_index := by
  simp only [remove_step, stop_song_index, apply_ite PState.current_song_index,
    ite_self]

/-- The removal loop never changes `current_song_index`. -/
theorem foldl_remove_index (sel : List ℕ) :
    ∀ s : PState, (sel.foldl remove_step s).current_song_index
      = s.current_song_index := by
  induction sel with
  | nil => intro s; rfl
  | cons i r ih =>
    intro s
    rw [List.foldl_cons, ih, remove_step_index]

/-- C10: after `remove_songs` removes a non-empty selection,
`current_song_index` is strictly below the playlist length; when the
playlist was emptied the index is clamped to `-1`; and `play_song` with
an out-of-range index (negative or past the end) is a no-op, so it never
indexes past the playlist. -/
theorem C10_remove_clamps (w : World) (now : ℚ) (s s2 : PState) (sel : List ℕ)
    (hsel : sel ≠ [])
    (h : -1 ≤ s.current_song_index)
    (h2 : ¬ (0 ≤ s2.current_song_index
        ∧ s2.current_song_index < (s2.playlist.length : ℤ))) :
    (remove_songs s sel).current_song_index
      < ((remove_songs s sel).playlist.length : ℤ)
    ∧ ((remove_songs s sel).playlist = []
        → (remove_songs s sel).current_song_index = -1)
    ∧ play_song w now s2 = s2 := by
  refine ⟨?_, ?_, ?_⟩
  · unfold remove_songs
    rw [if_neg hsel]
    dsimp only
    split_ifs with hcl
    · dsimp only
      omega
    · omega
  · unfold remove_songs
    rw [if_neg hsel]
    dsimp only
    split_ifs with hcl
    · intro hemp
      have hpl : (sel.foldl remove_step s).playlist = [] := by
        simpa using hemp
      dsimp only
      rw [hpl]
      simp
    · intro hemp
      rw [foldl_remove_index]
      rw [foldl_remove_index] at hcl
      rw [hemp] at hcl
      simp only [List.length_nil, Nat.cast_zero, not_le] at hcl
      omega
  · unfold play_song
    rw [if_neg h2]

/-- A two-track playlist positioned at the second track. -/
def c10State : PState :=
  { baseState with playlist := [trackA, trackB], current_song_index := 1 }

/-- C10 witness: removing both rows empties the playlist and the index
is clamped to `-1`; `play_song` on the resulting state is a no-op. -/
theorem C10_witness :
    (remove_songs c10State [0, 0]).current_song_index = -1
    ∧ play_song wTriv 0 baseState = baseState :=
  ⟨(C10_remove_clamps wTriv 0 c10State baseState [0, 0] (by decide) (by decide)
      (by decide)).2.1 (by decide),
   (C10_remove_clamps wTriv 0 c10State baseState [0, 0] (by decide) (by decide)
      (by decide)).2.2⟩

end GenericPlayer
